import Mathlib

/-!
Verification of the orchestration and confidence-reasoning layer of the
symptomSense backend.

The Python sources are shallowly embedded: Python floats become rationals
(all the arithmetic the policies perform is exact on the literals involved),
Python strings become Lean strings, Python `None`-able values become
`Option`, dictionaries with a fixed key set become structures, and Python
truthiness tests are made explicit (`Option.isSome` plus non-emptiness or
non-zeroness, as the source demands).  Each definition is annotated with the
source file and function it embeds.
-/

namespace SymptomSense

/-! ## Generic helpers for the embedding -/

/-- Python `max(l)` guarded by `if l else 0`, as written in
`agent_combine.py` line 55 (`max(rag_scores) if rag_scores else 0`).
The callers in this development only ever use it on non-empty lists. -/
def pyListMax : List ℚ → ℚ
  | [] => 0
  | h :: t => t.foldl max h

/-- Whether `needle` occurs at the start of `haystack` (on character lists). -/
def startsWithSub : List Char → List Char → Bool
  | [], _ => true
  | _ :: _, [] => false
  | c :: cs, d :: ds => c = d && startsWithSub cs ds

/-- Python's substring test `needle in haystack`, on character lists. -/
def containsSub (needle : List Char) : List Char → Bool
  | [] => needle.isEmpty
  | d :: ds => startsWithSub needle (d :: ds) || containsSub needle ds

/-- Python truthiness of an optional float: `None` and `0.0` are falsy. -/
def pyTruthy : Option ℚ → Bool
  | none => false
  | some x => x != 0

/-- Python truthiness of an optional string: `None` and `""` are falsy. -/
def pyTruthyStr : Option String → Bool
  | none => false
  | some s => !(s = "")

/-- Python `str.lower()`, character by character (all the lexicon keywords
compared against it are ASCII). -/
def pyLower (s : String) : String := String.mk (s.data.map Char.toLower)

/-- Python `str.strip()`: whitespace removed from both ends. -/
def pyStrip (s : String) : String :=
  String.mk (((s.data.dropWhile Char.isWhitespace).reverse.dropWhile Char.isWhitespace).reverse)

/-- Python `str.replace` for a single-character pattern (the only form the
source uses: `confidence_verification` replaces each newline of the
formatted warning list with a newline plus blockquote marker). -/
def replaceChar (pat : Char) (rep : List Char) : List Char → List Char
  | [] => []
  | c :: cs => (if c = pat then rep else [c]) ++ replaceChar pat rep cs

/-- `replaceChar` packaged on strings. -/
def pyReplaceChar (s : String) (pat : Char) (rep : String) : String :=
  String.mk (replaceChar pat rep.data s.data)

/-! ## Data model

`backend/app/agents/graph.py` (`AgentState`), `backend/app/services/confidence_service.py`
(`ConfidenceProfile`), and the dictionaries built by `agent_combine.py`. -/

/-- Task tags produced by `classify_input` and matched by the routers
(string literals in the source). -/
inductive TaskType
  | image_query
  | document_query
  | general_chat
deriving DecidableEq, Repr

/-- The node names returned by the conditional-edge routers in
`backend/app/agents/graph.py`. -/
inductive RouteTarget
  | image_analysis
  | document_rag
  | web_search
  | final_generation
deriving DecidableEq, Repr

/-- A web search result dictionary as consumed by
`AgentOrchestrator.combine_rag_and_web_context`: only the keys the
combiner reads (`url`, `title`, `relevance_score`) are modelled;
a missing key is `none`. -/
structure WebResult where
  url : Option String := none
  title : Option String := none
  snippet : Option String := none
  relevance_score : Option ℚ := none
deriving DecidableEq, Repr

/-- The `image_analysis` dictionary stored by the image node and read by
`final_generation` and `confidence_verification`; a missing key is `none`. -/
structure ImageAnalysisDict where
  label : Option String := none
  prediction : Option String := none
  confidence : Option ℚ := none
deriving DecidableEq, Repr

/-- A retrieved-document dictionary as read by `final_generation`
(`doc.get("text", "")`, `doc.get("source", "unknown")`). -/
structure RagDoc where
  text : Option String := none
  source : Option String := none
deriving DecidableEq, Repr

/-- A citation dictionary appended to `state["citations"]` by
`final_generation`: RAG citations carry label/source/score keys, web
citations carry label/title/url/snippet keys. -/
inductive Citation
  | ragCite (label source : String) (score : ℚ)
  | webCite (label title url snippet : String)
deriving DecidableEq, Repr

/-- The rounded dictionary produced by `ConfidenceProfile.to_dict`
(confidence_service.py lines 28-35). -/
structure ProfileOutDict where
  overall_confidence : ℚ
  image_confidence : Option ℚ := none
  rag_confidence : Option ℚ := none
  llm_confidence : Option ℚ := none
  confidence_level : String := "unknown"
deriving DecidableEq, Repr

/-- The LangGraph `AgentState` dictionary (graph.py lines 23-40), restricted
to the fields the orchestration layer reads or writes.  A key that a node may
leave absent is an `Option` whose `none` means "key not set"; absent
collection keys are read back as the empty list (`state.get(key, [])`), so
they are plain lists here. -/
structure AgentState where
  text_query : String := ""
  image_data : Option String := none
  task_types : List TaskType := []
  rag_context : List String := []
  rag_scores : List ℚ := []
  web_search_results : List WebResult := []
  image_analysis : Option ImageAnalysisDict := none
  rag_documents : List RagDoc := []
  logprobs : List ℚ := []
  web_search_snippets : List String := []
  final_answer : Option String := none
  warnings : List String := []
  citations : Option (List Citation) := none
  confidence_profile : Option (Option ProfileOutDict) := none
  hitl_flagged : Option Bool := none
  follow_up : Option (List String) := none
  avg_context_score : Option ℚ := none
  raw_prompt : Option String := none
deriving DecidableEq, Repr

/-- `ConfidenceProfile` dataclass from
`backend/app/services/confidence_service.py`. -/
structure ConfidenceProfile where
  overall_confidence : ℚ
  image_confidence : Option ℚ := none
  rag_confidence : Option ℚ := none
  llm_confidence : Option ℚ := none
  confidence_level : String := "unknown"
deriving DecidableEq, Repr

/-! ## ConfidenceService (`backend/app/services/confidence_service.py`) -/

/-- Constructor arguments of `ConfidenceService` with their Python defaults. -/
structure ConfidenceService where
  high_threshold : ℚ := 17/20
  medium_threshold : ℚ := 7/10
deriving DecidableEq, Repr

/-- `ConfidenceService.calculate_rag_confidence` (lines 49-72).  The method
reads no service state, so it is embedded as a plain function. -/
def calculate_rag_confidence (rag_scores : List ℚ) : ℚ :=
  if rag_scores.isEmpty then 0
  else
    let max_score := pyListMax rag_scores
    let avg_score := rag_scores.sum / rag_scores.length
    let confidence := 7/10 * max_score + 3/10 * avg_score
    let high_scores := rag_scores.filter (fun s => 3/5 < s)
    if 3 ≤ high_scores.length then min (confidence * (11/10)) 1 else confidence

/-- `ConfidenceService.calculate_llm_confidence` (lines 74-102). -/
def calculate_llm_confidence (logprobs : List ℚ) : ℚ :=
  if logprobs.isEmpty then 3/4
  else
    let avg_logprob := logprobs.sum / logprobs.length
    if -1/2 ≤ avg_logprob then 19/20
    else if -1 ≤ avg_logprob then 17/20
    else if -2 ≤ avg_logprob then 7/10
    else if -3 ≤ avg_logprob then 11/20
    else 2/5

/-- `ConfidenceService.aggregate_confidence` (lines 104-164).  The callers
pass `rag_scores or []` and `llm_logprobs or []`, which is the identity on
the list arguments here. -/
def aggregate_confidence (svc : ConfidenceService) (image_conf : Option ℚ)
    (rag_scores : List ℚ) (llm_logprobs : List ℚ) : ConfidenceProfile :=
  let rag_conf := calculate_rag_confidence rag_scores
  let llm_conf := calculate_llm_confidence llm_logprobs
  let overall :=
    match image_conf with
    | some ic =>
        if 0 < ic then 1/2 * ic + 1/4 * rag_conf + 1/4 * llm_conf
        else if !rag_scores.isEmpty then 3/5 * rag_conf + 2/5 * llm_conf
        else llm_conf
    | none =>
        if !rag_scores.isEmpty then 3/5 * rag_conf + 2/5 * llm_conf
        else llm_conf
  let level :=
    if svc.high_threshold ≤ overall then "high"
    else if svc.medium_threshold ≤ overall then "medium"
    else "low"
  { overall_confidence := overall
    image_confidence := image_conf
    rag_confidence := if rag_scores.isEmpty then none else some rag_conf
    llm_confidence := some llm_conf
    confidence_level := level }

/-- The temporal keyword list of `ConfidenceService.should_trigger_web_search`
(line 183). -/
def cs_temporal_keywords : List String :=
  ["latest", "current", "recent", "new", "2024", "2025", "update"]

/-- `ConfidenceService.should_trigger_web_search` (lines 170-194).  The
threshold 0.5 is hard-coded in the source; the method reads no service
state.  The guard `profile.rag_confidence is None or profile.rag_confidence
< 0.5` short-circuits, hence the match. -/
def should_trigger_web_search (profile : ConfidenceProfile) (query : String) : Bool :=
  let rag_low :=
    match profile.rag_confidence with
    | none => true
    | some rc => decide (rc < 1/2)
  if rag_low then true
  else
    let query_lower := pyLower query
    if cs_temporal_keywords.any (fun kw => containsSub kw.data query_lower.data) then true
    else false

/-! ## AgentOrchestrator (`backend/app/agents/agent_combine.py`) -/

/-- Constructor arguments of `AgentOrchestrator` with their Python defaults. -/
structure AgentOrchestrator where
  web_search_threshold : ℚ := 1/2
  hitl_threshold : ℚ := 7/10
deriving DecidableEq, Repr

/-- The temporal keyword list of `AgentOrchestrator.should_invoke_web_search`
(lines 65-68). -/
def temporal_keywords : List String :=
  ["latest", "current", "recent", "new", "update", "2024", "2025", "today", "now", "modern"]

/-- `AgentOrchestrator.should_invoke_web_search` (lines 33-74).  The
`confidence_service` parameter is accepted but never read, exactly as in the
source. -/
def should_invoke_web_search (o : AgentOrchestrator) (state : AgentState)
    (confidence_service : ConfidenceService) : Bool :=
  let query := pyLower state.text_query
  let rag_scores := state.rag_scores
  if rag_scores.isEmpty then true
  else
    let max_rag_score := pyListMax rag_scores
    if max_rag_score < o.web_search_threshold then true
    else if temporal_keywords.any (fun kw => containsSub kw.data query.data) then true
    else false

/-- Source tag carried by each combined context chunk. -/
inductive SourceType
  | knowledge_base
  | web
deriving DecidableEq, Repr

/-- A context chunk dictionary built by
`AgentOrchestrator.combine_rag_and_web_context`; knowledge-base chunks carry
no `url`/`title` keys (`none` here). -/
structure ContextChunk where
  text : String
  source_type : SourceType
  source_id : String
  relevance : ℚ
  url : Option String := none
  title : Option String := none
deriving DecidableEq, Repr

/-- The knowledge-base chunk built from the `i`-th element of
`zip(rag_context, rag_scores)` (lines 97-103; `enumerate(..., 1)` makes the
label `doc(i+1)`). -/
def rag_chunk (p : ℕ × (String × ℚ)) : ContextChunk :=
  { text := p.2.1
    source_type := SourceType.knowledge_base
    source_id := "doc" ++ toString (p.1 + 1)
    relevance := p.2.2 }

/-- The web chunk built from the `i`-th element of
`zip(web_snippets, web_results)` (lines 106-114), with default relevance 0.7
when the result carries no `relevance_score` key. -/
def web_chunk (p : ℕ × (String × WebResult)) : ContextChunk :=
  { text := p.2.1
    source_type := SourceType.web
    source_id := "web" ++ toString (p.1 + 1)
    relevance := p.2.2.relevance_score.getD (7/10)
    url := p.2.2.url
    title := p.2.2.title }

/-- The chunk list built by `combine_rag_and_web_context` before sorting:
RAG chunks labelled `doc1, doc2, ...` in input order, then web chunks
labelled `web1, web2, ...` in input order. -/
def combined_chunks_pre_sort (rag_context : List String) (rag_scores : List ℚ)
    (web_snippets : List String) (web_results : List WebResult) : List ContextChunk :=
  ((rag_context.zip rag_scores).enum).map rag_chunk ++
    ((web_snippets.zip web_results).enum).map web_chunk

/-- `AgentOrchestrator.combine_rag_and_web_context` (lines 76-129).  Python's
`list.sort(key=..., reverse=True)` is a stable descending sort, embedded as
`mergeSort` with the reversed comparison; the surrounding dictionary (whose
unused `sources` key stays empty) is dropped and the `context_chunks` list is
returned directly. -/
def combine_rag_and_web_context (rag_context : List String) (rag_scores : List ℚ)
    (web_snippets : List String) (web_results : List WebResult) : List ContextChunk :=
  (combined_chunks_pre_sort rag_context rag_scores web_snippets web_results).mergeSort
    (fun a b => decide (b.relevance ≤ a.relevance))

/-- The weights dictionary built by `determine_agent_priority`: a key that is
never written is an absent key (`none`), not a zero weight. -/
structure AgentWeights where
  image : Option ℚ := none
  rag : Option ℚ := none
  web : Option ℚ := none
deriving DecidableEq, Repr

/-- Sum of the present values of a weights dictionary. -/
def sumWeights (w : AgentWeights) : ℚ :=
  w.image.getD 0 + w.rag.getD 0 + w.web.getD 0

/-- The confidence-profile dictionary argument of `determine_agent_priority`
(the result of `ConfidenceProfile.to_dict`), restricted to the keys the
allocator reads via `.get(key, 0)`; both reads default to 0. -/
structure ProfileDict where
  image_confidence : ℚ := 0
  rag_confidence : ℚ := 0
deriving DecidableEq, Repr

/-- `AgentOrchestrator.determine_agent_priority` (lines 170-220). -/
def determine_agent_priority (state : AgentState) (confidence_profile : Option ProfileDict) :
    AgentWeights :=
  let has_image := pyTruthyStr state.image_data
  let has_rag := !state.rag_context.isEmpty
  let has_web := !state.web_search_results.isEmpty
  match confidence_profile with
  | some p =>
      if has_image then
        let image_conf := p.image_confidence
        if 17/20 < image_conf then { image := some (3/5), rag := some (1/5), web := some (1/5) }
        else if 7/10 < image_conf then
          { image := some (2/5), rag := some (3/10), web := some (3/10) }
        else { image := some (1/5), rag := some (2/5), web := some (2/5) }
      else if has_rag && has_web then
        let rag_conf := p.rag_confidence
        if 3/5 < rag_conf then { rag := some (3/5), web := some (2/5) }
        else { rag := some (2/5), web := some (3/5) }
      else if has_rag then { rag := some 1 }
      else if has_web then { web := some 1 }
      else {}
  | none =>
      if has_rag && has_web then
        let rag_conf : ℚ := 1/2
        if 3/5 < rag_conf then { rag := some (3/5), web := some (2/5) }
        else { rag := some (2/5), web := some (3/5) }
      else if has_rag then { rag := some 1 }
      else if has_web then { web := some 1 }
      else {}

/-! ## Routing (`backend/app/agents/graph.py` and
`backend/app/agents/nodes/classify_input.py`) -/

/-- `classify_input` (nodes/classify_input.py lines 10-23): derives the task
tags from the stripped query text and the image payload; the stripped text is
used only locally and not written back. -/
def classify_input (state : AgentState) : AgentState :=
  let text_query := pyStrip state.text_query
  let tasks :=
    (if pyTruthyStr state.image_data then [TaskType.image_query] else []) ++
    (if !(text_query = "") then [TaskType.document_query] else [])
  let tasks := if tasks.isEmpty then [TaskType.general_chat] else tasks
  { state with task_types := tasks }

/-- `route_from_classify` (graph.py lines 83-89). -/
def route_from_classify (state : AgentState) : RouteTarget :=
  if TaskType.image_query ∈ state.task_types then RouteTarget.image_analysis
  else if TaskType.document_query ∈ state.task_types then RouteTarget.document_rag
  else RouteTarget.final_generation

/-- The optional collaborators captured by the routing closures of
`build_graph` (graph.py lines 43-57); the web-search provider
(`brave_service`) is among them but is only handed to the `web_search` node,
never consulted by a router. -/
structure GraphServices where
  confidence_service : Option ConfidenceService := none
  brave_service : Option Unit := none
  orchestrator : Option AgentOrchestrator := none

/-- `route_after_rag` (graph.py lines 98-111): falls back to final
generation unless both the orchestrator and the confidence service are
configured, then defers to `should_invoke_web_search`. -/
def route_after_rag (g : GraphServices) (state : AgentState) : RouteTarget :=
  match g.orchestrator, g.confidence_service with
  | some orch, some conf =>
      if should_invoke_web_search orch state conf then RouteTarget.web_search
      else RouteTarget.final_generation
  | _, _ => RouteTarget.final_generation

/-! ## HITLService (`backend/app/services/hitl_service.py`) -/

/-- Constructor arguments of `HITLService` that `should_flag_for_review`
reads, with their Python defaults. -/
structure HITLService where
  enabled : Bool := true
  confidence_threshold : ℚ := 7/10
deriving DecidableEq, Repr

/-- `HITLService.should_flag_for_review` (lines 55-82).  The guard
`if (profile.image_confidence and profile.rag_confidence)` is Python
truthiness: it skips the divergence check when either value is `None` or
exactly `0.0`. -/
def should_flag_for_review (svc : HITLService) (profile : ConfidenceProfile) : Bool :=
  if !svc.enabled then false
  else if profile.overall_confidence < svc.confidence_threshold then true
  else if pyTruthy profile.image_confidence && pyTruthy profile.rag_confidence then
    if 2/5 < |profile.image_confidence.getD 0 - profile.rag_confidence.getD 0| then true
    else false
  else false

/-! ## Final generation (`backend/app/agents/nodes/final_generation.py`) -/

/-- Decimal rendering of a rational with a fixed number of fraction digits,
modelling the `:.2f` / `:.3f` format specifiers used in the warning and
citation strings (half-way values round up here; the Python format rounds
them to even, a difference no value in this development hits). -/
def format_decimal (digits : ℕ) (c : ℚ) : String :=
  let n := Int.floor (c * (10 : ℚ) ^ digits + 1/2)
  let sign := if n < 0 then "-" else ""
  let m := n.natAbs
  let ip := m / 10 ^ digits
  let fp := m % 10 ^ digits
  let fpStr := toString fp
  let pad := String.mk (List.replicate (digits - fpStr.length) '0')
  sign ++ toString ip ++ "." ++ pad ++ fpStr

/-- Python `round(x, 3)` on the rationals this development feeds it
(half-way values round up here; Python rounds them to even, a difference no
value in this development hits). -/
def round3 (x : ℚ) : ℚ := (Int.floor (x * 1000 + 1/2) : ℚ) / 1000

/-- `ConfidenceProfile.to_dict` (confidence_service.py lines 28-35): each
optional confidence is rounded to 3 digits, but the guard
`round(x, 3) if x else None` is Python truthiness, turning an exact 0.0 into
`None`. -/
def profile_to_dict (p : ConfidenceProfile) : ProfileOutDict :=
  { overall_confidence := round3 p.overall_confidence
    image_confidence :=
      if pyTruthy p.image_confidence then some (round3 (p.image_confidence.getD 0)) else none
    rag_confidence :=
      if pyTruthy p.rag_confidence then some (round3 (p.rag_confidence.getD 0)) else none
    llm_confidence :=
      if pyTruthy p.llm_confidence then some (round3 (p.llm_confidence.getD 0)) else none
    confidence_level := p.confidence_level }

/-- The profile dictionary handed from `final_generation` to
`determine_agent_priority`, read there via `.get(key, 0)`; a `None` entry is
read back as 0 here (the Python would raise on the subsequent comparison,
a path no caller reaches with a populated image analysis). -/
def profile_dict_for_priority (p : ConfidenceProfile) : ProfileDict :=
  { image_confidence := ((profile_to_dict p).image_confidence).getD 0
    rag_confidence := ((profile_to_dict p).rag_confidence).getD 0 }

/-- Renders one citation line of the non-NLG answer layout
(final_generation.py lines 236-243). -/
def render_citation : Citation → String
  | Citation.webCite label title url _ => "- " ++ label ++ ": " ++ title ++ " (" ++ url ++ ")"
  | Citation.ragCite label source score =>
      "- " ++ label ++ ": " ++ source ++ " (score=" ++ format_decimal 3 score ++ ")"

/-- The structured answer parsed from the generation output
(`AgentAnswer` in backend/app/models/schema.py). -/
structure AgentAnswer where
  answer : String
  citations : List String := []
  follow_up : List String := []
  warnings : List String := []
deriving DecidableEq, Repr

/-- The NLG collaborator as consumed by `final_generation`: only its
`naturalize_response` capability matters to the state transition, so the
service is that function. -/
structure NLGService where
  naturalize_response :
    String → ConfidenceProfile → List String → List Citation → Option ImageAnalysisDict → String

/-- `final_generation` (final_generation.py lines 47-284).  The external
effects are passed as inputs: `gen_result` is the outcome of
`gemini.generate_with_fallback` (`Except.error` when the fallback provider is
also exhausted and the call raises), `parse` abstracts
`_extract_json_from_text` plus `AgentAnswer.model_validate_json` (returning
`none` on a parse failure, which the source salvages by wrapping the raw
text), and `prompt` is the synthesis prompt assembled in lines 101-141
(pure string formatting that only flows into `state["raw_prompt"]`). -/
def final_generation (gen_result : Except String String)
    (parse : String → Option AgentAnswer) (prompt : String)
    (confidence_service : Option ConfidenceService) (nlg_service : Option NLGService)
    (hitl_service : Option HITLService) (orchestrator : Option AgentOrchestrator)
    (state : AgentState) : AgentState :=
  let image_conf := match state.image_analysis with
    | some ia => ia.confidence
    | none => none
  let rag_scores := state.rag_scores
  let llm_logprobs := state.logprobs
  let confidence_profile :=
    confidence_service.map (fun svc => aggregate_confidence svc image_conf rag_scores llm_logprobs)
  match gen_result with
  | Except.error _ =>
      { state with
          final_answer := some "I encountered an error while generating the response."
          warnings := state.warnings ++ ["LLM generation failed; using fallback messaging."] }
  | Except.ok raw =>
      let parsed := (parse raw).getD { answer := pyStrip raw }
      let rag_sources := (state.rag_documents.enum).map fun p =>
        Citation.ragCite ("doc" ++ toString (p.1 + 1)) (p.2.source.getD "unknown")
          (state.rag_scores.getD p.1 0)
      let web_sources := (state.web_search_results.enum).map fun p =>
        Citation.webCite ("web" ++ toString (p.1 + 1)) (p.2.title.getD "") (p.2.url.getD "")
          (p.2.snippet.getD "")
      let rag_context := state.rag_documents.map (fun d => d.text.getD "")
      let state1 :=
        match nlg_service, confidence_profile with
        | some nlg, some cp =>
            let natural_answer :=
              nlg.naturalize_response parsed.answer cp rag_context web_sources state.image_analysis
            { state with
                final_answer := some natural_answer
                citations := some (rag_sources ++ web_sources) }
        | _, _ =>
            let all_citations := rag_sources ++ web_sources
            let answer_lines :=
              [pyStrip parsed.answer] ++
              (if all_citations.isEmpty then []
               else "\nSources:" :: all_citations.map render_citation) ++
              (if parsed.follow_up.isEmpty then []
               else "\nSuggested follow-up:" :: parsed.follow_up.map (fun item => "- " ++ item)) ++
              (if parsed.warnings.isEmpty then []
               else "\nWarnings:" :: parsed.warnings.map (fun w => "- " ++ w))
            { state with
                final_answer := some (String.intercalate "\n" answer_lines)
                citations := some all_citations }
      let hitl_flagged :=
        match hitl_service, confidence_profile with
        | some hs, some cp => should_flag_for_review hs cp
        | _, _ => false
      { state1 with
          confidence_profile := some (confidence_profile.map profile_to_dict)
          hitl_flagged := some hitl_flagged
          warnings := state.warnings ++ parsed.warnings
          follow_up := some parsed.follow_up
          avg_context_score :=
            some (if rag_scores.isEmpty then 0 else rag_scores.sum / rag_scores.length)
          raw_prompt := some prompt }

/-! ## Confidence verification
(`backend/app/agents/nodes/confidence_verification.py`) -/

/-- The settings fields read by `confidence_verification`
(backend/app/core/settings.py, default 0.8). -/
structure Settings where
  MIN_IMAGE_CONFIDENCE : ℚ := 4/5
deriving DecidableEq, Repr

/-- `confidence_verification` (confidence_verification.py lines 10-35):
collects the triggered warnings on top of the warnings already in the state
and, when any warning is present, appends a blockquoted "Confidence Notes"
section to the final answer. -/
def confidence_verification (settings : Settings) (state : AgentState) : AgentState :=
  let warnings := state.warnings
  let warnings :=
    match state.image_analysis with
    | some ia =>
        match ia.confidence with
        | some c =>
            if c < settings.MIN_IMAGE_CONFIDENCE then
              warnings ++ ["Image classifier confidence is " ++ format_decimal 2 c ++
                ", please corroborate with a specialist."]
            else warnings
        | none => warnings
    | none => warnings
  let warnings :=
    if state.rag_documents.isEmpty then
      warnings ++ ["No retrieval context was available; answer is based on general knowledge."]
    else warnings
  let warnings :=
    match state.avg_context_score with
    | some a =>
        if a < 3/10 then
          warnings ++ ["Retrieved passages had low similarity scores; verify details manually."]
        else warnings
    | none => warnings
  if warnings.isEmpty then { state with warnings := warnings }
  else
    let formatted := String.intercalate "\n" (warnings.map (fun note => "- " ++ note))
    let quoted := pyReplaceChar formatted '\n' "\n> "
    let note_block := "\n\n> **Confidence Notes**\n> " ++ quoted
    { state with
        final_answer := some (pyStrip (state.final_answer.getD "") ++ note_block)
        warnings := warnings }

/-! ## Helper lemmas about the Python `max` embedding -/

lemma le_foldl_max (t : List ℚ) (a : ℚ) : a ≤ t.foldl max a := by
  induction t generalizing a with
  | nil => exact le_refl a
  | cons b t ih =>
      calc a ≤ max a b := le_max_left a b
        _ ≤ (b :: t).foldl max a := ih (max a b)

lemma mem_le_foldl_max {t : List ℚ} {x : ℚ} (a : ℚ) (hx : x ∈ t) : x ≤ t.foldl max a := by
  induction t generalizing a with
  | nil => cases hx
  | cons b t ih =>
      rcases List.mem_cons.mp hx with rfl | hx
      · rw [List.foldl_cons]
        calc x ≤ max a x := le_max_right a x
          _ ≤ t.foldl max (max a x) := le_foldl_max t (max a x)
      · rw [List.foldl_cons]
        exact ih (max a b) hx

lemma foldl_max_mem (t : List ℚ) (a : ℚ) : t.foldl max a = a ∨ t.foldl max a ∈ t := by
  induction t generalizing a with
  | nil => exact Or.inl rfl
  | cons b t ih =>
      rcases ih (max a b) with h | h
      · rcases max_choice a b with hab | hab
        · exact Or.inl (by rw [List.foldl_cons, h, hab])
        · exact Or.inr (by rw [List.foldl_cons, h, hab]; exact List.mem_cons_self b t)
      · exact Or.inr (List.mem_cons_of_mem b h)

lemma pyListMax_mem {l : List ℚ} (h : l ≠ []) : pyListMax l ∈ l := by
  cases l with
  | nil => exact absurd rfl h
  | cons a t =>
      rcases foldl_max_mem t a with h1 | h1
      · rw [pyListMax, h1]; exact List.mem_cons_self a t
      · rw [pyListMax]; exact List.mem_cons_of_mem a h1

lemma le_pyListMax {l : List ℚ} {x : ℚ} (hx : x ∈ l) : x ≤ pyListMax l := by
  cases l with
  | nil => cases hx
  | cons a t =>
      rcases List.mem_cons.mp hx with rfl | hx
      · exact le_foldl_max t x
      · exact mem_le_foldl_max a hx

lemma pyListMax_eq_of_isMax {l : List ℚ} {m : ℚ} (hm : m ∈ l) (hub : ∀ x ∈ l, x ≤ m) :
    pyListMax l = m :=
  le_antisymm (hub _ (pyListMax_mem (List.ne_nil_of_mem hm))) (le_pyListMax hm)

/-- The mean of a non-empty list is at most any upper bound of its members. -/
lemma list_mean_le_of_le {l : List ℚ} {m : ℚ} (h : l ≠ []) (hub : ∀ x ∈ l, x ≤ m) :
    l.sum / l.length ≤ m := by
  have hlen : (0 : ℚ) < l.length := by
    exact_mod_cast List.length_pos.mpr h
  rw [div_le_iff₀ hlen]
  have := List.sum_le_card_nsmul l m hub
  rw [nsmul_eq_mul] at this
  calc l.sum ≤ (l.length : ℚ) * m := this
    _ = m * l.length := by ring

/-- Without any score above the boost cut-off, `calculate_rag_confidence` is
bounded by the maximum score. -/
lemma calculate_rag_confidence_lt_of_max_lt {l : List ℚ} {t : ℚ} (h : l ≠ [])
    (ht : t ≤ 3/5) (hmax : pyListMax l < t) : calculate_rag_confidence l < t := by
  have hub : ∀ x ∈ l, x ≤ pyListMax l := fun x hx => le_pyListMax hx
  have hfilter : l.filter (fun s => 3/5 < s) = [] := by
    refine List.filter_eq_nil_iff.mpr fun a ha => ?_
    have : a < 3/5 := lt_of_le_of_lt (hub a ha) (lt_of_lt_of_le hmax ht)
    simpa using not_lt.mpr (le_of_lt this)
  have hne : l.isEmpty = false := by
    cases l with
    | nil => exact absurd rfl h
    | cons a t => rfl
  have hmean : l.sum / l.length ≤ pyListMax l := list_mean_le_of_le h hub
  rw [calculate_rag_confidence, hne]
  simp only [Bool.false_eq_true, if_false, hfilter, List.length_nil]
  norm_num
  linarith

lemma isEmpty_eq_false_of_ne_nil {α : Type _} {l : List α} (h : l ≠ []) :
    l.isEmpty = false := by
  cases l with
  | nil => exact absurd rfl h
  | cons a t => rfl

/-! ## Claims -/

/-- C1: for every configured threshold, query and retrieval-score list, the
web-search trigger returns true iff the score list is empty, or its maximum
is below the threshold, or the lowercased query contains a temporal-lexicon
keyword; in particular it fires on empty scores for any query, on a maximum
below the default threshold 0.5 without any temporal keyword, on the query
"latest covid guidance" for any scores, and does not fire for scores [0.8]
with query "pneumonia symptoms". -/
theorem web_search_trigger_policy :
    (∀ (t h : ℚ) (svc : ConfidenceService) (s : AgentState),
      should_invoke_web_search ⟨t, h⟩ s svc = true ↔
        (s.rag_scores = [] ∨
          (∃ m, m ∈ s.rag_scores ∧ (∀ x ∈ s.rag_scores, x ≤ m) ∧ m < t) ∨
          (∃ kw ∈ temporal_keywords, containsSub kw.data (pyLower s.text_query).data = true))) ∧
    (∀ q : String,
      should_invoke_web_search {} { text_query := q, rag_scores := [] } {} = true) ∧
    should_invoke_web_search {}
      { text_query := "pneumonia symptoms", rag_scores := [2/5, 3/10] } {} = true ∧
    (∀ scores : List ℚ,
      should_invoke_web_search {}
        { text_query := "latest covid guidance", rag_scores := scores } {} = true) ∧
    should_invoke_web_search {}
      { text_query := "pneumonia symptoms", rag_scores := [4/5] } {} = false := by
  have hiff : ∀ (t h : ℚ) (svc : ConfidenceService) (s : AgentState),
      should_invoke_web_search ⟨t, h⟩ s svc = true ↔
        (s.rag_scores = [] ∨
          (∃ m, m ∈ s.rag_scores ∧ (∀ x ∈ s.rag_scores, x ≤ m) ∧ m < t) ∨
          (∃ kw ∈ temporal_keywords, containsSub kw.data (pyLower s.text_query).data = true)) := by
    intro t h svc s
    rcases hl : s.rag_scores with _ | ⟨a, l⟩
    · simp [should_invoke_web_search, hl]
    · have hne : (a :: l) ≠ [] := List.cons_ne_nil a l
      have hmax_mem := pyListMax_mem hne
      have hmax_ub : ∀ x ∈ (a :: l), x ≤ pyListMax (a :: l) := fun x hx => le_pyListMax hx
      have hmaxiff : (∃ m, m ∈ (a :: l) ∧ (∀ x ∈ (a :: l), x ≤ m) ∧ m < t) ↔
          pyListMax (a :: l) < t := by
        constructor
        · rintro ⟨m, hm, hub, hmt⟩
          rwa [pyListMax_eq_of_isMax hm hub]
        · intro hlt
          exact ⟨pyListMax (a :: l), hmax_mem, hmax_ub, hlt⟩
      simp only [should_invoke_web_search, hl, List.isEmpty_cons, Bool.false_eq_true, if_false]
      by_cases hlt : pyListMax (a :: l) < t
      · rw [if_pos hlt]
        exact ⟨fun _ => Or.inr (Or.inl (hmaxiff.mpr hlt)), fun _ => rfl⟩
      · rw [if_neg hlt]
        by_cases hkw :
            temporal_keywords.any (fun kw => containsSub kw.data (pyLower s.text_query).data) = true
        · rw [if_pos hkw]
          exact ⟨fun _ => Or.inr (Or.inr (List.any_eq_true.mp hkw)), fun _ => rfl⟩
        · rw [if_neg hkw]
          constructor
          · intro hfalse
            exact absurd hfalse (by simp)
          · rintro (hnil | hmax | hany)
            · exact absurd hnil (List.cons_ne_nil a l)
            · exact absurd (hmaxiff.mp hmax) hlt
            · exact absurd (List.any_eq_true.mpr hany) hkw
  have hfive : should_invoke_web_search {}
      { text_query := "pneumonia symptoms", rag_scores := [4/5] } {} = false := by
    have hnot : ¬ ((([(4:ℚ)/5] : List ℚ) = []) ∨
        (∃ m, m ∈ [(4:ℚ)/5] ∧ (∀ x ∈ [(4:ℚ)/5], x ≤ m) ∧ m < 1/2) ∨
        (∃ kw ∈ temporal_keywords,
          containsSub kw.data (pyLower "pneumonia symptoms").data = true)) := by
      rintro (hnil | ⟨m, hm, _, hmt⟩ | ⟨kw, hkw, hsub⟩)
      · exact absurd hnil (List.cons_ne_nil _ _)
      · have : m = 4/5 := by simpa using hm
        rw [this] at hmt
        norm_num at hmt
      · revert hsub
        fin_cases hkw <;> decide
    rcases hb : should_invoke_web_search {}
        { text_query := "pneumonia symptoms", rag_scores := [4/5] } {} with _ | _
    · rfl
    · exact absurd ((hiff (1/2) (7/10) {} _).mp hb) hnot
  refine ⟨hiff, ?_, ?_, ?_, hfive⟩
  · intro q
    simp [should_invoke_web_search]
  · refine (hiff (1/2) (7/10) {} _).mpr (Or.inr (Or.inl ⟨2/5, ?_, ?_, by norm_num⟩))
    · simp
    · intro x hx
      fin_cases hx <;> norm_num
  · intro scores
    rcases hs : scores with _ | ⟨a, l⟩
    · simp [should_invoke_web_search]
    · have hsub : containsSub "latest".data (pyLower "latest covid guidance").data =
          true := by decide
      exact (hiff (1/2) (7/10) {} _).mpr (Or.inr (Or.inr ⟨"latest", by decide, hsub⟩))

/-- C4: on the empty list `rag_confidence` is 0, and otherwise it is
0.7 times the maximum plus 0.3 times the mean, multiplied by 1.1 and clamped
to 1.0 exactly when at least 3 scores exceed 0.6. -/
theorem rag_confidence_formula :
    calculate_rag_confidence [] = 0 ∧
    ∀ (scores : List ℚ) (m : ℚ), m ∈ scores → (∀ x ∈ scores, x ≤ m) →
      calculate_rag_confidence scores =
        (if 3 ≤ scores.countP (fun s => decide (3/5 < s)) then
          min ((7/10 * m + 3/10 * (scores.sum / scores.length)) * (11/10)) 1
        else 7/10 * m + 3/10 * (scores.sum / scores.length)) := by
  refine ⟨rfl, ?_⟩
  intro scores m hm hub
  have hne : scores ≠ [] := List.ne_nil_of_mem hm
  have hmax : pyListMax scores = m := pyListMax_eq_of_isMax hm hub
  have hempty : scores.isEmpty = false := by
    cases scores with
    | nil => exact absurd rfl hne
    | cons a t => rfl
  rw [calculate_rag_confidence, hempty]
  simp only [Bool.false_eq_true, if_false, hmax, List.countP_eq_length_filter]

/-- Witness for C4 at the concrete score list [0.7, 0.8, 0.9], whose maximum
0.9 realises the hypotheses; all three scores exceed 0.6, so the boosted
value is 0.87 * 1.1 = 0.957. -/
theorem rag_confidence_formula_witness :
    ((9:ℚ)/10 ∈ [(7:ℚ)/10, 4/5, 9/10] ∧ (∀ x ∈ [(7:ℚ)/10, 4/5, 9/10], x ≤ 9/10)) ∧
    calculate_rag_confidence [7/10, 4/5, 9/10] = 957/1000 := by
  have hmem : (9:ℚ)/10 ∈ [(7:ℚ)/10, 4/5, 9/10] := by
    simp
  have hub : ∀ x ∈ [(7:ℚ)/10, 4/5, 9/10], x ≤ 9/10 := by
    intro x hx
    fin_cases hx <;> norm_num
  have h := rag_confidence_formula.2 [7/10, 4/5, 9/10] (9/10) hmem hub
  refine ⟨⟨hmem, hub⟩, ?_⟩
  rw [h]
  norm_num [List.countP_cons, List.countP_nil, min_def]

/-- C2 (counterexample): with the shared default threshold 0.5, the two
web-search policies disagree at the scores [0.55, 0.1] and the
keyword-free query "pneumonia": the orchestrator's trigger compares the
maximum 0.55 against 0.5 and answers false, while the confidence-service
trigger compares the aggregated rag confidence
0.7 * 0.55 + 0.3 * 0.325 = 0.4825 against 0.5 and answers true. -/
theorem trigger_policies_disagree :
    should_invoke_web_search {}
      { text_query := "pneumonia", rag_scores := [11/20, 1/10] } {} = false ∧
    should_trigger_web_search (aggregate_confidence {} none [11/20, 1/10] [])
      "pneumonia" = true := by
  have hm : pyListMax [(11:ℚ)/20, 1/10] = 11/20 := by
    apply pyListMax_eq_of_isMax
    · simp
    · intro x hx
      fin_cases hx <;> norm_num
  have hcalc : calculate_rag_confidence [11/20, 1/10] = 193/400 := by
    have hf : ([(11:ℚ)/20, 1/10].filter (fun s => 3/5 < s)) = [] := by
      refine List.filter_eq_nil_iff.mpr ?_
      intro x hx
      fin_cases hx <;> norm_num
    rw [calculate_rag_confidence]
    simp only [List.isEmpty_cons, Bool.false_eq_true, if_false, hm, hf, List.length_nil,
      List.length_cons, List.sum_cons, List.sum_nil]
    norm_num
  constructor
  · rw [should_invoke_web_search]
    simp only [List.isEmpty_cons, Bool.false_eq_true, if_false, hm]
    rw [if_neg (by norm_num), if_neg (by decide)]
  · have hrc0 : (aggregate_confidence {} none [11/20, 1/10] []).rag_confidence =
        some (calculate_rag_confidence [11/20, 1/10]) := rfl
    have hrc : (aggregate_confidence {} none [11/20, 1/10] []).rag_confidence =
        some (193/400) := by rw [hrc0, hcalc]
    rw [should_trigger_web_search, hrc]
    rw [if_pos (decide_eq_true (show (193:ℚ)/400 < 1/2 by norm_num))]

/-- C2 (amended): the two web-search policies are not extensionally equal,
but they agree, both voting true, whenever the retrieval evidence is weak:
the score list is empty or its maximum is below the shared threshold 0.5
(the confidence-service policy consults the aggregated rag confidence,
which is then also below 0.5, or absent). -/
theorem trigger_policies_agree_on_weak_retrieval
    (query : String) (scores logprobs : List ℚ) (image_conf : Option ℚ)
    (o : AgentOrchestrator) (csvc svc2 : ConfidenceService)
    (h : scores = [] ∨ pyListMax scores < 1/2) (ho : o.web_search_threshold = 1/2) :
    should_invoke_web_search o { text_query := query, rag_scores := scores } csvc = true ∧
    should_trigger_web_search (aggregate_confidence svc2 image_conf scores logprobs)
      query = true := by
  by_cases hsc : scores = []
  · subst hsc
    constructor
    · simp [should_invoke_web_search]
    · have hrc : (aggregate_confidence svc2 image_conf [] logprobs).rag_confidence = none := rfl
      rw [should_trigger_web_search, hrc]
      rw [if_pos rfl]
  · have hlt : pyListMax scores < 1/2 := h.resolve_left hsc
    have hE : scores.isEmpty = false := isEmpty_eq_false_of_ne_nil hsc
    have hcalc : calculate_rag_confidence scores < 1/2 :=
      calculate_rag_confidence_lt_of_max_lt hsc (by norm_num) hlt
    constructor
    · rw [should_invoke_web_search]
      simp only [hE, Bool.false_eq_true, if_false]
      rw [if_pos (ho ▸ hlt)]
    · have hrc : (aggregate_confidence svc2 image_conf scores logprobs).rag_confidence =
          (if scores.isEmpty then none else some (calculate_rag_confidence scores)) := rfl
      rw [should_trigger_web_search, hrc, hE]
      simp only [Bool.false_eq_true, if_false]
      rw [if_pos (decide_eq_true hcalc)]

/-- Witness for the amended C2 at the concrete scores [0.4] (maximum below
0.5) and query "chest pain". -/
theorem trigger_policies_agree_on_weak_retrieval_witness :
    (([(2:ℚ)/5] = ([] : List ℚ) ∨ pyListMax [(2:ℚ)/5] < 1/2) ∧
      ({} : AgentOrchestrator).web_search_threshold = 1/2) ∧
    (should_invoke_web_search {} { text_query := "chest pain", rag_scores := [2/5] } {} = true ∧
      should_trigger_web_search (aggregate_confidence {} none [2/5] []) "chest pain" = true) := by
  have hmax : pyListMax [(2:ℚ)/5] < 1/2 := by
    norm_num [pyListMax]
  have h := trigger_policies_agree_on_weak_retrieval "chest pain" [2/5] [] none {} {} {}
    (Or.inr hmax) rfl
  exact ⟨⟨Or.inr hmax, rfl⟩, h⟩

/-- C7 (counterexample): at the profile with overall 0.8, image confidence
exactly 0.0 and rag confidence 0.9 (threshold 0.70), the claimed formula
fires (overall is not below the threshold, both confidences are present and
their gap 0.9 exceeds 0.4), yet the code does not flag: the Python
truthiness guard treats the present value 0.0 as absent. -/
theorem hitl_flag_presence_counterexample :
    should_flag_for_review {}
      { overall_confidence := 4/5, image_confidence := some 0, rag_confidence := some (9/10),
        llm_confidence := some (9/10), confidence_level := "high" } = false ∧
    ¬((4:ℚ)/5 < 7/10) ∧
    ({ overall_confidence := 4/5, image_confidence := some 0, rag_confidence := some (9/10),
        llm_confidence := some (9/10), confidence_level := "high" } :
      ConfidenceProfile).image_confidence ≠ none ∧
    ({ overall_confidence := 4/5, image_confidence := some 0, rag_confidence := some (9/10),
        llm_confidence := some (9/10), confidence_level := "high" } :
      ConfidenceProfile).rag_confidence ≠ none ∧
    (2:ℚ)/5 < |(0:ℚ) - 9/10| := by
  refine ⟨?_, by norm_num, Option.some_ne_none _, Option.some_ne_none _, ?_⟩
  · rw [should_flag_for_review]
    simp only [Bool.not_true, Bool.false_eq_true, if_false]
    rw [if_neg (by norm_num)]
    simp [pyTruthy]
  · rw [zero_sub, abs_neg, abs_of_nonneg (by norm_num : (0:ℚ) ≤ 9/10)]
    norm_num

/-- C7 (amended): with the HITL service enabled, the flag decision equals:
overall confidence below the threshold, OR image and rag confidence both
present AND non-zero AND differing by more than 0.4 (a present confidence of
exactly 0.0 is treated as absent); the three example profiles from the claim
behave as stated under threshold 0.70. -/
theorem hitl_flag_policy :
    (∀ (thr : ℚ) (p : ConfidenceProfile),
      should_flag_for_review { enabled := true, confidence_threshold := thr } p = true ↔
        (p.overall_confidence < thr ∨
          ∃ ic rc, p.image_confidence = some ic ∧ p.rag_confidence = some rc ∧
            ic ≠ 0 ∧ rc ≠ 0 ∧ 2/5 < |ic - rc|)) ∧
    should_flag_for_review {}
      { overall_confidence := 29/50, image_confidence := some (11/20),
        rag_confidence := some (9/20), llm_confidence := some (13/20) } = true ∧
    should_flag_for_review {}
      { overall_confidence := 89/100, image_confidence := some (91/100),
        rag_confidence := some (3/4), llm_confidence := some (9/10) } = false ∧
    should_flag_for_review {}
      { overall_confidence := 3/4, image_confidence := some (19/20),
        rag_confidence := some (3/10) } = true := by
  have hiff : ∀ (thr : ℚ) (p : ConfidenceProfile),
      should_flag_for_review { enabled := true, confidence_threshold := thr } p = true ↔
        (p.overall_confidence < thr ∨
          ∃ ic rc, p.image_confidence = some ic ∧ p.rag_confidence = some rc ∧
            ic ≠ 0 ∧ rc ≠ 0 ∧ 2/5 < |ic - rc|) := by
    intro thr p
    rw [should_flag_for_review]
    simp only [Bool.not_true, Bool.false_eq_true, if_false]
    by_cases hov : p.overall_confidence < thr
    · rw [if_pos hov]
      simp [hov]
    · rw [if_neg hov]
      rcases hic : p.image_confidence with _ | ic
      · simp [pyTruthy, hic, hov]
      · rcases hrc : p.rag_confidence with _ | rc
        · simp [pyTruthy, hic, hrc, hov]
        · by_cases hic0 : ic = 0
          · simp [pyTruthy, hic, hrc, hic0, hov]
          · by_cases hrc0 : rc = 0
            · simp [pyTruthy, hic, hrc, hic0, hrc0, hov]
            · by_cases habs : 2/5 < |ic - rc|
              · simp [pyTruthy, hic, hrc, hic0, hrc0, hov, habs]
              · simp [pyTruthy, hic, hrc, hic0, hrc0, hov, habs]
  refine ⟨hiff, ?_, ?_, ?_⟩
  · exact (hiff (7/10) _).mpr (Or.inl (by norm_num))
  · have hnot : ¬(((89:ℚ)/100 < 7/10) ∨
        ∃ ic rc, (some ((91:ℚ)/100) : Option ℚ) = some ic ∧
          (some ((3:ℚ)/4) : Option ℚ) = some rc ∧
          ic ≠ 0 ∧ rc ≠ 0 ∧ 2/5 < |ic - rc|) := by
      rintro (hov | ⟨ic, rc, hic, hrc, _, _, habs⟩)
      · norm_num at hov
      · cases Option.some.inj hic
        cases Option.some.inj hrc
        rw [show (91:ℚ)/100 - 3/4 = 4/25 by norm_num,
          abs_of_nonneg (by norm_num : (0:ℚ) ≤ 4/25)] at habs
        norm_num at habs
    rcases hb : should_flag_for_review {}
        { overall_confidence := 89/100, image_confidence := some (91/100),
          rag_confidence := some (3/4), llm_confidence := some (9/10) } with _ | _
    · rfl
    · exact absurd ((hiff (7/10) _).mp hb) hnot
  · refine (hiff (7/10) _).mpr (Or.inr ⟨19/20, 3/10, rfl, rfl, by norm_num, by norm_num, ?_⟩)
    rw [show (19:ℚ)/20 - 3/10 = 13/20 by norm_num,
      abs_of_nonneg (by norm_num : (0:ℚ) ≤ 13/20)]
    norm_num

/-- C10: a rag or image confidence equal to exactly 0.0 disables the
divergence rule, so the flag decision reduces to the overall-confidence
threshold test alone. -/
theorem hitl_zero_confidence_treated_as_absent (thr : ℚ) (p : ConfidenceProfile)
    (h : p.image_confidence = some 0 ∨ p.rag_confidence = some 0) :
    should_flag_for_review { enabled := true, confidence_threshold := thr } p =
      decide (p.overall_confidence < thr) := by
  rw [should_flag_for_review]
  simp only [Bool.not_true, Bool.false_eq_true, if_false]
  by_cases hov : p.overall_confidence < thr
  · rw [if_pos hov, decide_eq_true hov]
  · rw [if_neg hov, decide_eq_false hov]
    rcases h with h | h
    · rw [h]
      simp [pyTruthy]
    · rw [h]
      simp [pyTruthy]

/-- Witness for C10: a profile with overall 0.75 above the default
threshold 0.70, image confidence 0.95 and rag confidence exactly 0.0 is not
flagged for review. -/
theorem hitl_zero_confidence_treated_as_absent_witness :
    (({ overall_confidence := 3/4, image_confidence := some (19/20), rag_confidence := some 0 } : ConfidenceProfile).image_confidence = some 0 ∨
      ({ overall_confidence := 3/4, image_confidence := some (19/20), rag_confidence := some 0 } : ConfidenceProfile).rag_confidence = some 0) ∧
    should_flag_for_review { enabled := true, confidence_threshold := 7/10 }
      { overall_confidence := 3/4, image_confidence := some (19/20), rag_confidence := some 0 } = false := by
  have h := hitl_zero_confidence_treated_as_absent (7/10)
    { overall_confidence := 3/4, image_confidence := some (19/20), rag_confidence := some 0 }
    (Or.inr rfl)
  refine ⟨Or.inr rfl, ?_⟩
  rw [h, decide_eq_false (by norm_num)]

/-- Case description of the allocator without a confidence profile: the
Python `rag_conf` default 0.5 is not above 0.6, so a rag+web state gets the
0.4/0.6 split. -/
lemma determine_none_eval (state : AgentState) :
    determine_agent_priority state none =
      (if state.rag_context ≠ [] then
        (if state.web_search_results ≠ [] then { rag := some (2/5), web := some (3/5) }
         else { rag := some 1 })
       else (if state.web_search_results ≠ [] then { web := some 1 } else {})) := by
  rw [determine_agent_priority]
  by_cases hr : state.rag_context = [] <;> by_cases hw : state.web_search_results = [] <;>
    simp [hr, hw, isEmpty_eq_false_of_ne_nil] <;> norm_num

/-- Case description of the allocator with a confidence profile. -/
lemma determine_some_eval (state : AgentState) (pd : ProfileDict) :
    determine_agent_priority state (some pd) =
      (if pyTruthyStr state.image_data = true then
        (if 17/20 < pd.image_confidence then
          { image := some (3/5), rag := some (1/5), web := some (1/5) }
         else if 7/10 < pd.image_confidence then
          { image := some (2/5), rag := some (3/10), web := some (3/10) }
         else { image := some (1/5), rag := some (2/5), web := some (2/5) })
       else if state.rag_context ≠ [] then
        (if state.web_search_results ≠ [] then
          (if 3/5 < pd.rag_confidence then { rag := some (3/5), web := some (2/5) }
           else { rag := some (2/5), web := some (3/5) })
         else { rag := some 1 })
       else (if state.web_search_results ≠ [] then { web := some 1 } else {})) := by
  rw [determine_agent_priority]
  by_cases hr : state.rag_context = [] <;> by_cases hw : state.web_search_results = [] <;>
    simp [hr, hw, isEmpty_eq_false_of_ne_nil]

/-- C5 (counterexample): the weight allocator can return the empty weight
map, whose present values sum to 0 rather than to within 1e-6 of 1.0
(state with no image, no rag context, no web results, no profile); and in
the image branch the absent rag modality is not omitted but receives
weight 0.2 (state with an image, a profile with image confidence 0.9, and
empty rag context). -/
theorem agent_weights_counterexample :
    determine_agent_priority {} none = ({} : AgentWeights) ∧
    sumWeights (determine_agent_priority {} none) = 0 ∧
    ¬|sumWeights (determine_agent_priority {} none) - 1| ≤ 1/1000000 ∧
    (determine_agent_priority { image_data := some "scan" }
      (some { image_confidence := 9/10 })).rag = some (1/5) ∧
    ({ image_data := some "scan" } : AgentState).rag_context = [] := by
  refine ⟨rfl, ?_, ?_, ?_, rfl⟩
  · norm_num [determine_agent_priority, sumWeights]
  · have hz : sumWeights (determine_agent_priority {} none) = 0 := by
      norm_num [determine_agent_priority, sumWeights]
    rw [hz]
    intro hcontra
    rw [show (0:ℚ) - 1 = -1 by norm_num, abs_neg, abs_one] at hcontra
    norm_num at hcontra
  · rw [determine_agent_priority]
    rw [if_pos (by decide), if_pos (by norm_num)]

/-- C5 (amended): every weight map produced by the allocator is either
empty or has present values summing to exactly 1.0; it is empty precisely
when the image branch does not apply (no truthy image payload together with
a profile) and no rag or web context is present.  Absent modalities are
omitted on the text-only paths, but the image branch weights rag and web
regardless of their presence. -/
theorem agent_weights_sum_or_empty :
    ∀ (state : AgentState) (p : Option ProfileDict),
      (determine_agent_priority state p = ({} : AgentWeights) ↔
        (¬(pyTruthyStr state.image_data = true ∧ p.isSome = true) ∧
          state.rag_context = [] ∧ state.web_search_results = [])) ∧
      (determine_agent_priority state p = ({} : AgentWeights) ∨
        sumWeights (determine_agent_priority state p) = 1) ∧
      (¬(pyTruthyStr state.image_data = true ∧ p.isSome = true) →
        (determine_agent_priority state p).image = none ∧
        (state.rag_context = [] → (determine_agent_priority state p).rag = none) ∧
        (state.web_search_results = [] → (determine_agent_priority state p).web = none)) := by
  intro state p
  rcases p with _ | pd
  · rw [determine_none_eval]
    refine ⟨?_, ?_, ?_⟩
    · split_ifs with h1 h2 h3 <;> simp_all [AgentWeights.mk.injEq]
    · split_ifs <;>
        first
          | exact Or.inl rfl
          | (right; norm_num [sumWeights])
    · intro hgood
      split_ifs with h1 h2 h3 <;> simp_all
  · rw [determine_some_eval]
    by_cases hi : pyTruthyStr state.image_data = true
    · refine ⟨?_, ?_, ?_⟩
      · rw [if_pos hi]
        constructor
        · intro hEq
          exfalso
          revert hEq
          split_ifs <;> simp [AgentWeights.mk.injEq]
        · rintro ⟨hcontra, -, -⟩
          exact absurd ⟨hi, rfl⟩ hcontra
      · right
        rw [if_pos hi]
        split_ifs <;> norm_num [sumWeights]
      · intro hcontra
        exact absurd ⟨hi, rfl⟩ hcontra
    · rw [if_neg hi]
      refine ⟨?_, ?_, ?_⟩
      · split_ifs with h1 h2 h3 h4 <;> simp_all [AgentWeights.mk.injEq]
      · split_ifs <;>
          first
            | exact Or.inl rfl
            | (right; norm_num [sumWeights])
      · intro hgood
        split_ifs with h1 h2 h3 h4 <;> simp_all

/-- C3 (counterexample): with the orchestrator and the confidence service
configured but the web-search provider (brave service) absent, a state with
empty retrieval scores is still routed to WebSearch: the router never
consults the web-search collaborator's presence. -/
theorem route_ignores_brave_service :
    route_after_rag
      { orchestrator := some {}, confidence_service := some {}, brave_service := none }
      { text_query := "chest pain", rag_scores := [] } = RouteTarget.web_search ∧
    ({ orchestrator := some {}, confidence_service := some {}, brave_service := none } :
      GraphServices).brave_service = none := by
  exact ⟨rfl, rfl⟩

/-- C3 (amended): leaving Classify the pipeline goes to ImageAnalysis if a
truthy image payload is present, else to DocumentRetrieval if the stripped
query text is non-empty, else to FinalGeneration; leaving DocumentRetrieval
it goes to WebSearch exactly when the orchestrator and the confidence
aggregator are both configured and the web-search trigger votes true (the
web-search provider's presence is not consulted). -/
theorem routing_policy :
    (∀ s : AgentState, route_from_classify (classify_input s) =
      (if pyTruthyStr s.image_data = true then RouteTarget.image_analysis
       else if pyStrip s.text_query ≠ "" then RouteTarget.document_rag
       else RouteTarget.final_generation)) ∧
    (∀ (g : GraphServices) (s : AgentState),
      route_after_rag g s = RouteTarget.web_search ↔
        ∃ orch csvc, g.orchestrator = some orch ∧ g.confidence_service = some csvc ∧
          should_invoke_web_search orch s csvc = true) := by
  constructor
  · intro s
    rw [classify_input, route_from_classify]
    by_cases hi : pyTruthyStr s.image_data = true
    · simp [hi]
    · have hi' : pyTruthyStr s.image_data = false := by
        revert hi
        cases pyTruthyStr s.image_data <;> simp
      by_cases ht : pyStrip s.text_query = ""
      · simp [hi', hi, ht]
      · simp [hi', hi, ht]
  · intro g s
    rcases ho : g.orchestrator with _ | orch <;> rcases hc : g.confidence_service with _ | csvc
    · simp [route_after_rag, ho, hc]
    · simp [route_after_rag, ho, hc]
    · simp [route_after_rag, ho, hc]
    · rw [route_after_rag, ho, hc]
      by_cases htr : should_invoke_web_search orch s csvc = true
      · simp [htr]
      · simp [htr]

/-- Transitivity of the Boolean comparison used to sort chunks. -/
lemma chunk_le_trans (a b c : ContextChunk)
    (h1 : decide (b.relevance ≤ a.relevance) = true)
    (h2 : decide (c.relevance ≤ b.relevance) = true) :
    decide (c.relevance ≤ a.relevance) = true :=
  decide_eq_true (le_trans (of_decide_eq_true h2) (of_decide_eq_true h1))

/-- Totality of the Boolean comparison used to sort chunks. -/
lemma chunk_le_total (a b : ContextChunk) :
    (decide (b.relevance ≤ a.relevance) || decide (a.relevance ≤ b.relevance)) = true := by
  rcases le_total b.relevance a.relevance with h | h
  · simp [decide_eq_true h]
  · simp [decide_eq_true h]

/-- C6: combining an empty document list with an empty web list yields the
empty chunk list; the combiner's output is a permutation of the labelled
pre-sort list, sorted by relevance descending; the sort is stable (any two
chunks of equal relevance keep their pre-sort encounter order); the
knowledge-base items of the pre-sort list are labelled doc1, doc2, ... in
original order and the web items web1, web2, ... in original order; and a
web result without an explicit relevance score yields a chunk with the
default relevance 0.7. -/
theorem context_combiner_spec :
    combine_rag_and_web_context [] [] [] [] = [] ∧
    (∀ (rc : List String) (rs : List ℚ) (ws : List String) (wr : List WebResult),
      (combine_rag_and_web_context rc rs ws wr).Perm (combined_chunks_pre_sort rc rs ws wr)) ∧
    (∀ (rc : List String) (rs : List ℚ) (ws : List String) (wr : List WebResult),
      (combine_rag_and_web_context rc rs ws wr).Pairwise
        (fun a b => b.relevance ≤ a.relevance)) ∧
    (∀ (rc : List String) (rs : List ℚ) (ws : List String) (wr : List WebResult)
        (a b : ContextChunk),
      [a, b].Sublist (combined_chunks_pre_sort rc rs ws wr) → a.relevance = b.relevance →
        [a, b].Sublist (combine_rag_and_web_context rc rs ws wr)) ∧
    (∀ (rc : List String) (rs : List ℚ) (ws : List String) (wr : List WebResult),
      ((combined_chunks_pre_sort rc rs ws wr).filter
          (fun c => c.source_type = SourceType.knowledge_base)).map (fun c => c.source_id) =
        (List.range (rc.zip rs).length).map (fun i => "doc" ++ toString (i + 1)) ∧
      ((combined_chunks_pre_sort rc rs ws wr).filter
          (fun c => c.source_type = SourceType.web)).map (fun c => c.source_id) =
        (List.range (ws.zip wr).length).map (fun i => "web" ++ toString (i + 1))) ∧
    (∀ (rc : List String) (rs : List ℚ) (ws : List String) (wr : List WebResult)
        (i : ℕ) (snip : String) (r : WebResult),
      (ws.zip wr)[i]? = some (snip, r) → r.relevance_score = none →
        ∃ c ∈ combine_rag_and_web_context rc rs ws wr,
          c.source_type = SourceType.web ∧ c.source_id = "web" ++ toString (i + 1) ∧
          c.text = snip ∧ c.relevance = 7/10) := by
  refine ⟨?_, ?_, ?_, ?_, ?_, ?_⟩
  · rw [combine_rag_and_web_context, combined_chunks_pre_sort]
    simp
  · intro rc rs ws wr
    exact List.mergeSort_perm _ _
  · intro rc rs ws wr
    have h := List.sorted_mergeSort chunk_le_trans chunk_le_total
      (combined_chunks_pre_sort rc rs ws wr)
    exact h.imp fun hab => of_decide_eq_true hab
  · intro rc rs ws wr a b hsub heq
    refine List.sublist_mergeSort chunk_le_trans chunk_le_total ?_ hsub
    refine List.pairwise_cons.mpr ⟨?_, List.pairwise_singleton _ _⟩
    intro c hc
    have : c = b := by simpa using hc
    subst this
    exact decide_eq_true (le_of_eq heq.symm)
  · intro rc rs ws wr
    constructor
    · rw [combined_chunks_pre_sort, List.filter_append, List.filter_map, List.filter_map]
      have h1 : ((fun c => decide (c.source_type = SourceType.knowledge_base)) ∘ rag_chunk) =
          fun p : ℕ × (String × ℚ) => true := by
        funext p
        simp [rag_chunk]
      have h2 : ((fun c => decide (c.source_type = SourceType.knowledge_base)) ∘ web_chunk) =
          fun p : ℕ × (String × WebResult) => false := by
        funext p
        simp [web_chunk]
      rw [h1, h2, List.filter_true, List.filter_false, List.map_nil, List.append_nil,
        List.map_map]
      have h3 : ((fun c => c.source_id) ∘ rag_chunk) =
          (fun i => "doc" ++ toString (i + 1)) ∘ Prod.fst := by
        funext p
        rfl
      rw [h3, ← List.map_map, List.enum_map_fst]
    · rw [combined_chunks_pre_sort, List.filter_append, List.filter_map, List.filter_map]
      have h1 : ((fun c => decide (c.source_type = SourceType.web)) ∘ rag_chunk) =
          fun p : ℕ × (String × ℚ) => false := by
        funext p
        simp [rag_chunk]
      have h2 : ((fun c => decide (c.source_type = SourceType.web)) ∘ web_chunk) =
          fun p : ℕ × (String × WebResult) => true := by
        funext p
        simp [web_chunk]
      rw [h1, h2, List.filter_true, List.filter_false, List.map_nil, List.nil_append,
        List.map_map]
      have h3 : ((fun c => c.source_id) ∘ web_chunk) =
          (fun i => "web" ++ toString (i + 1)) ∘ Prod.fst := by
        funext p
        rfl
      rw [h3, ← List.map_map, List.enum_map_fst]
  · intro rc rs ws wr i snip r hget hnone
    refine ⟨web_chunk (i, (snip, r)), ?_, rfl, rfl, rfl, ?_⟩
    · rw [combine_rag_and_web_context, List.mem_mergeSort, combined_chunks_pre_sort,
        List.mem_append]
      refine Or.inr (List.mem_map_of_mem web_chunk ?_)
      exact List.mem_enum_iff_getElem?.mpr hget
    · rw [web_chunk]
      rw [hnone]
      rfl

/-- Witness for C6 on concrete one-element inputs: the document chunk
(score 0.7) and the web chunk (no explicit score, default 0.7) have equal
relevance, and the stable sort keeps the document chunk first; the web
chunk keeps the default relevance 0.7. -/
theorem context_combiner_spec_witness :
    ([{ text := "alpha", source_type := SourceType.knowledge_base, source_id := "doc1", relevance := 7/10 },
      { text := "beta", source_type := SourceType.web, source_id := "web1", relevance := 7/10 }].Sublist
        (combined_chunks_pre_sort ["alpha"] [7/10] ["beta"] [{}]) ∧
      ({ text := "alpha", source_type := SourceType.knowledge_base, source_id := "doc1", relevance := 7/10 } : ContextChunk).relevance =
        ({ text := "beta", source_type := SourceType.web, source_id := "web1", relevance := 7/10 } : ContextChunk).relevance) ∧
    [{ text := "alpha", source_type := SourceType.knowledge_base, source_id := "doc1", relevance := 7/10 },
      { text := "beta", source_type := SourceType.web, source_id := "web1", relevance := 7/10 }].Sublist
        (combine_rag_and_web_context ["alpha"] [7/10] ["beta"] [{}]) ∧
    (∃ c ∈ combine_rag_and_web_context ["alpha"] [7/10] ["beta"] [{}],
      c.source_type = SourceType.web ∧ c.source_id = "web" ++ toString (0 + 1) ∧
      c.text = "beta" ∧ c.relevance = 7/10) := by
  have hpre : combined_chunks_pre_sort ["alpha"] [7/10] ["beta"] [{}] =
      [{ text := "alpha", source_type := SourceType.knowledge_base, source_id := "doc1", relevance := 7/10 },
        { text := "beta", source_type := SourceType.web, source_id := "web1", relevance := 7/10 }] := by
    rw [combined_chunks_pre_sort]
    rfl
  have hsub : [{ text := "alpha", source_type := SourceType.knowledge_base, source_id := "doc1", relevance := 7/10 },
      { text := "beta", source_type := SourceType.web, source_id := "web1", relevance := 7/10 }].Sublist
        (combined_chunks_pre_sort ["alpha"] [7/10] ["beta"] [{}]) := by
    rw [hpre]
  have hstable := context_combiner_spec.2.2.2.1 ["alpha"] [7/10] ["beta"] [{}] _ _ hsub rfl
  have hdefault := context_combiner_spec.2.2.2.2.2 ["alpha"] [7/10] ["beta"] [{}] 0 "beta" {}
    rfl rfl
  exact ⟨⟨hsub, rfl⟩, hstable, hdefault⟩

set_option maxRecDepth 8000 in
/-- C8: re-running `confidence_verification` on a state it has already
annotated is not idempotent: on a state with no retrieval documents the
second run appends the same warning a second time and appends a second
blockquoted "Confidence Notes" section to the final answer. -/
theorem confidence_verification_rerun_duplicates :
    confidence_verification {} (confidence_verification {} { final_answer := some "All good." }) ≠
      confidence_verification {} { final_answer := some "All good." } ∧
    (confidence_verification {} { final_answer := some "All good." }).warnings =
      ["No retrieval context was available; answer is based on general knowledge."] ∧
    (confidence_verification {}
        (confidence_verification {} { final_answer := some "All good." })).warnings =
      ["No retrieval context was available; answer is based on general knowledge.",
        "No retrieval context was available; answer is based on general knowledge."] ∧
    (confidence_verification {}
        (confidence_verification {} { final_answer := some "All good." })).final_answer =
      some ("All good." ++
        "\n\n> **Confidence Notes**\n> - No retrieval context was available; answer is based on general knowledge." ++
        "\n\n> **Confidence Notes**\n> - No retrieval context was available; answer is based on general knowledge.\n> - No retrieval context was available; answer is based on general knowledge.") := by
  refine ⟨by decide, by decide, by decide, by decide⟩

/-- C9: when text generation fails after the fallback provider is
exhausted, final generation sets the final answer to the fixed apology
message and appends exactly one generation-failure warning, leaving every
other field of the state, in particular the confidence profile, the
citations and the HITL flag, untouched (synthesis is skipped). -/
theorem final_generation_failure_path :
    ∀ (e : String) (parse : String → Option AgentAnswer) (prompt : String)
      (csvc : Option ConfidenceService) (nlg : Option NLGService)
      (hs : Option HITLService) (orch : Option AgentOrchestrator) (state : AgentState),
      final_generation (Except.error e) parse prompt csvc nlg hs orch state =
        { state with
            final_answer := some "I encountered an error while generating the response."
            warnings := state.warnings ++ ["LLM generation failed; using fallback messaging."] } ∧
      (final_generation (Except.error e) parse prompt csvc nlg hs orch
        state).confidence_profile = state.confidence_profile ∧
      (final_generation (Except.error e) parse prompt csvc nlg hs orch state).citations =
        state.citations ∧
      (final_generation (Except.error e) parse prompt csvc nlg hs orch state).hitl_flagged =
        state.hitl_flagged := by
  intro e parse prompt csvc nlg hs orch state
  exact ⟨rfl, rfl, rfl, rfl⟩

end SymptomSense
